import Mathlib

set_option maxRecDepth 8000

/-!
Verification of the quiz-attempt lifecycle of the `verticals` client.

The model shallowly embeds the `QuizAttempt` screen (quiz loading, the
countdown timer effect, answer collection, submission and result display)
and the `CreateQuiz` screen's submit validation.  React component state is
an explicit record; each event handler becomes a state-transformer; the
observable side effects (POST requests and alerts) are tracked by counters
on the state.  Awaited network calls take their outcome as a parameter.
-/

/-- A quiz question: prompt text, option strings, 0-based correct index. -/
structure Question where
  question : String
  options : List String
  correct : Nat
deriving Repr, DecidableEq

/-- A quiz as returned by GET /quiz/detail. -/
structure Quiz where
  quiz_id : String
  subject_id : String
  title : String
  description : Option String
  questions : List Question
  time_limit_mins : Nat
deriving Repr, DecidableEq

/-- A scoring result returned by POST /quiz/attempt: score and total. -/
structure QuizResult where
  score : Nat
  total : Nat
deriving Repr, DecidableEq

/-- Outcome of an awaited POST /quiz/attempt request. -/
inductive SubmitOutcome where
  | ok (r : QuizResult)
  | err
deriving Repr, DecidableEq

/-- The `QuizAttempt` component state (the useState hooks), together with
counters for the observable effects: `submitCount` counts POST /quiz/attempt
requests issued, `promptCount` counts displays of the Incomplete
confirmation alert, `errorCount` counts error alerts, and `pendingConfirm`
records that the Incomplete alert is on screen awaiting the user's choice. -/
structure AttemptState where
  quiz : Option Quiz
  answers : List Int
  timeLeft : Nat
  started : Bool
  loading : Bool
  submitting : Bool
  showResult : Bool
  result : Option QuizResult
  submitCount : Nat
  promptCount : Nat
  errorCount : Nat
  pendingConfirm : Bool
deriving Repr, DecidableEq

/-- The initial hook values of the `QuizAttempt` component. -/
def initialState : AttemptState :=
  { quiz := none
    answers := []
    timeLeft := 0
    started := false
    loading := true
    submitting := false
    showResult := false
    result := none
    submitCount := 0
    promptCount := 0
    errorCount := 0
    pendingConfirm := false }

/-- `loadQuiz`, success path: store the quiz, set every answer to -1 and the
remaining time to time_limit_mins * 60, clear the loading flag. -/
def loadQuiz (s : AttemptState) (q : Quiz) : AttemptState :=
  { s with quiz := some q
           answers := List.replicate q.questions.length (-1)
           timeLeft := q.time_limit_mins * 60
           loading := false }

/-- `handleStart`: sets the started flag. -/
def handleStart (s : AttemptState) : AttemptState :=
  { s with started := true }

/-- `handleAnswerChange`: copies the answers array and writes
`answerIndex` at `questionIndex`.  (Faithful for in-bounds indices,
which is the constraint the spec places on this operation.) -/
def handleAnswerChange (s : AttemptState) (questionIndex : Nat)
    (answerIndex : Int) : AttemptState :=
  { s with answers := s.answers.set questionIndex answerIndex }

/-- `submitQuiz`: returns immediately when no quiz is loaded; otherwise
issues the POST /quiz/attempt request; on success stores the result and
shows the result dialog, on failure shows an error alert; the finally
block clears the submitting flag either way. -/
def submitQuiz (s : AttemptState) (outcome : SubmitOutcome) : AttemptState :=
  match s.quiz with
  | none => s
  | some _ =>
    let s1 := { s with submitting := true, submitCount := s.submitCount + 1 }
    match outcome with
    | .ok r =>
        { s1 with result := some r, showResult := true, submitting := false }
    | .err =>
        { s1 with errorCount := s1.errorCount + 1, submitting := false }

/-- `handleSubmit`: when some answer is -1, shows the Incomplete
confirmation alert (submission waits for the user's button press);
otherwise calls `submitQuiz` directly. -/
def handleSubmit (s : AttemptState) (outcome : SubmitOutcome) : AttemptState :=
  if s.answers.any (· == -1) then
    { s with promptCount := s.promptCount + 1, pendingConfirm := true }
  else
    submitQuiz s outcome

/-- The user presses Submit on the Incomplete alert: its onPress runs
`submitQuiz`. -/
def confirmIncomplete (s : AttemptState) (outcome : SubmitOutcome) : AttemptState :=
  submitQuiz { s with pendingConfirm := false } outcome

/-- The user presses Cancel on the Incomplete alert: the alert is
dismissed and nothing else happens. -/
def cancelIncomplete (s : AttemptState) : AttemptState :=
  { s with pendingConfirm := false }

/-- One run of the timer effect (deps [started, timeLeft]): while started
with time remaining the scheduled timeout fires and decrements the clock;
at started with zero time remaining it calls `handleSubmit`; otherwise it
does nothing. -/
def timerTick (s : AttemptState) (outcome : SubmitOutcome) : AttemptState :=
  if s.started && decide (0 < s.timeLeft) then
    { s with timeLeft := s.timeLeft - 1 }
  else if s.started && decide (s.timeLeft = 0) then
    handleSubmit s outcome
  else
    s

/-- The events that drive the `QuizAttempt` screen. -/
inductive Event where
  | load (q : Quiz)
  | start
  | answer (i : Nat) (o : Int)
  | tick (outcome : SubmitOutcome)
  | userSubmit (outcome : SubmitOutcome)
  | confirm (outcome : SubmitOutcome)
  | cancel
deriving Repr, DecidableEq

/-- Dispatch one event to its handler. -/
def step (s : AttemptState) : Event → AttemptState
  | .load q => loadQuiz s q
  | .start => handleStart s
  | .answer i o => handleAnswerChange s i o
  | .tick oc => timerTick s oc
  | .userSubmit oc => handleSubmit s oc
  | .confirm oc => confirmIncomplete s oc
  | .cancel => cancelIncomplete s

/-- Run a list of events from the component's initial state. -/
def runTrace (events : List Event) : AttemptState :=
  events.foldl step initialState

/-- JavaScript Math.round over exact rationals: the half-up rounding
`floor (x + 1/2)` (ties go toward positive infinity). -/
def mathRound (x : ℚ) : ℤ := ⌊x + 1 / 2⌋

/-- The percentage shown in the result dialog:
`Math.round (result.score / result.total * 100)`. -/
def resultPercentage (r : QuizResult) : ℤ :=
  mathRound ((r.score : ℚ) / (r.total : ℚ) * 100)

/-- The qualitative message shown in the result dialog:
`result.score / result.total >= 0.7` selects the positive message. -/
def resultMessage (r : QuizResult) : String :=
  if (7 : ℚ) / 10 ≤ (r.score : ℚ) / (r.total : ℚ) then
    "Great job! Well done!"
  else
    "Keep practicing!"

/-- JavaScript String.prototype.trim, embedded over the character list:
strip the leading and the trailing whitespace characters. -/
def jsTrim (s : String) : String :=
  String.mk
    (((s.data.dropWhile Char.isWhitespace).reverse.dropWhile
      Char.isWhitespace).reverse)

/-- Blank test used by the CreateQuiz validation: a string is falsy after
trim exactly when its trim is empty. -/
def isBlank (s : String) : Bool := jsTrim s == ""

/-- One question of the CreateQuiz validation loop is rejected when its
prompt is blank or some option string is blank. -/
def questionInvalid (q : Question) : Bool :=
  isBlank q.question || q.options.any (fun o => isBlank o)

/-- The state of the `CreateQuiz` component that its submit handler reads,
with counters for the observable effects (POST /quiz requests and
validation error alerts). -/
structure CreateQuizState where
  title : String
  description : String
  timeLimit : String
  questions : List Question
  postCount : Nat
  errorCount : Nat
deriving Repr, DecidableEq

/-- The CreateQuiz `handleSubmit`: rejects a blank title or an empty
question list, then rejects any question with a blank prompt or a blank
option (first failure alerts and returns), and only otherwise issues the
POST /quiz request. -/
def createQuizSubmit (s : CreateQuizState) : CreateQuizState :=
  if isBlank s.title || decide (s.questions.length = 0) then
    { s with errorCount := s.errorCount + 1 }
  else if s.questions.any questionInvalid then
    { s with errorCount := s.errorCount + 1 }
  else
    { s with postCount := s.postCount + 1 }

/-! ### Helper lemmas about the attempt-state operations -/

theorem submitQuiz_preserves (s : AttemptState) (oc : SubmitOutcome) :
    (submitQuiz s oc).answers = s.answers ∧
    (submitQuiz s oc).quiz = s.quiz ∧
    (submitQuiz s oc).timeLeft = s.timeLeft ∧
    (submitQuiz s oc).started = s.started := by
  unfold submitQuiz
  rcases hq : s.quiz with _ | q <;> cases oc <;> simp [hq]

theorem handleSubmit_preserves (s : AttemptState) (oc : SubmitOutcome) :
    (handleSubmit s oc).answers = s.answers ∧
    (handleSubmit s oc).quiz = s.quiz ∧
    (handleSubmit s oc).timeLeft = s.timeLeft ∧
    (handleSubmit s oc).started = s.started := by
  unfold handleSubmit
  split
  · simp
  · exact submitQuiz_preserves s oc

theorem timerTick_preserves (s : AttemptState) (oc : SubmitOutcome) :
    (timerTick s oc).answers = s.answers ∧
    (timerTick s oc).quiz = s.quiz ∧
    (timerTick s oc).started = s.started := by
  unfold timerTick
  split
  · simp
  · split
    · exact ⟨(handleSubmit_preserves s oc).1, (handleSubmit_preserves s oc).2.1,
        (handleSubmit_preserves s oc).2.2.2⟩
    · exact ⟨rfl, rfl, rfl⟩

theorem confirmIncomplete_preserves (s : AttemptState) (oc : SubmitOutcome) :
    (confirmIncomplete s oc).answers = s.answers ∧
    (confirmIncomplete s oc).quiz = s.quiz := by
  unfold confirmIncomplete
  have h := submitQuiz_preserves { s with pendingConfirm := false } oc
  exact ⟨h.1, h.2.1⟩

/-- C4: the freshly initialized attempt state after a quiz with N questions
loads has an answers sequence of length N with every entry -1, and
remaining time time_limit_mins * 60 seconds. -/
theorem loadQuiz_initializes (s : AttemptState) (q : Quiz) :
    (loadQuiz s q).answers.length = q.questions.length ∧
    (∀ a ∈ (loadQuiz s q).answers, a = -1) ∧
    (loadQuiz s q).timeLeft = q.time_limit_mins * 60 := by
  refine ⟨by simp [loadQuiz], ?_, rfl⟩
  intro a ha
  exact List.eq_of_mem_replicate ha

/-- A concrete question used by concrete instantiations. -/
def demoQuestion : Question :=
  { question := "Q", options := ["A", "B", "C", "D"], correct := 0 }

/-- A concrete two-question quiz with a one-minute limit. -/
def demoQuiz : Quiz :=
  { quiz_id := "qz1", subject_id := "sb1", title := "Demo", description := none,
    questions := [demoQuestion, demoQuestion], time_limit_mins := 1 }

/-- C5: with the question index in bounds, setting question i's answer to o
and reading it back returns o, the answers of all other questions are
unchanged, and a second write to the same question overwrites the first. -/
theorem handleAnswerChange_reads_back (s : AttemptState) (i : Nat) (o o2 : Int)
    (h : i < s.answers.length) :
    (handleAnswerChange s i o).answers[i]? = some o ∧
    (∀ j, j ≠ i → (handleAnswerChange s i o).answers[j]? = s.answers[j]?) ∧
    handleAnswerChange (handleAnswerChange s i o2) i o = handleAnswerChange s i o := by
  refine ⟨?_, ?_, ?_⟩
  · simp [handleAnswerChange, List.getElem?_set_eq_of_lt _ h]
  · intro j hj
    simp [handleAnswerChange, List.getElem?_set_ne (Ne.symm hj)]
  · simp [handleAnswerChange, List.set_set]

/-- Witness for C5 at a concrete loaded state. -/
theorem handleAnswerChange_reads_back_witness :
    0 < (loadQuiz initialState demoQuiz).answers.length ∧
    (handleAnswerChange (loadQuiz initialState demoQuiz) 0 2).answers[0]? = some 2 :=
  ⟨by decide,
    (handleAnswerChange_reads_back (loadQuiz initialState demoQuiz) 0 2 2 (by decide)).1⟩

/-- C7: on an explicit submit, the Incomplete confirmation prompt is shown
(and no request issued) exactly when some answer is -1; with every question
answered no prompt is shown and the request is issued directly. -/
theorem handleSubmit_prompt_iff (s : AttemptState) (oc : SubmitOutcome)
    (q : Quiz) (hq : s.quiz = some q) :
    ((∃ a ∈ s.answers, a = -1) →
      (handleSubmit s oc).promptCount = s.promptCount + 1 ∧
      (handleSubmit s oc).submitCount = s.submitCount) ∧
    ((∀ a ∈ s.answers, a ≠ -1) →
      (handleSubmit s oc).promptCount = s.promptCount ∧
      (handleSubmit s oc).submitCount = s.submitCount + 1) := by
  cases hA : s.answers.any (· == -1) with
  | true =>
      constructor
      · intro _
        simp [handleSubmit, hA]
      · intro hall
        exfalso
        rcases List.any_eq_true.mp hA with ⟨a, ha, hbeq⟩
        exact hall a ha (by simpa using hbeq)
  | false =>
      constructor
      · intro hex
        exfalso
        rcases hex with ⟨a, ha, haeq⟩
        have hT : s.answers.any (· == -1) = true :=
          List.any_eq_true.mpr ⟨a, ha, by simp [haeq]⟩
        rw [hA] at hT
        exact Bool.false_ne_true hT
      · intro _
        cases oc <;> simp [handleSubmit, hA, submitQuiz, hq]

/-- Witness for C7: a freshly loaded two-question quiz has both answers -1,
so an explicit submit shows the prompt and issues no request. -/
theorem handleSubmit_prompt_iff_witness :
    (handleSubmit (loadQuiz initialState demoQuiz) SubmitOutcome.err).promptCount
      = (loadQuiz initialState demoQuiz).promptCount + 1 ∧
    (handleSubmit (loadQuiz initialState demoQuiz) SubmitOutcome.err).submitCount
      = (loadQuiz initialState demoQuiz).submitCount :=
  (handleSubmit_prompt_iff (loadQuiz initialState demoQuiz) SubmitOutcome.err
      demoQuiz rfl).1 ⟨-1, by decide, rfl⟩

/-- C8: a failed submission increments the error-alert count, leaves the
answers, started flag, remaining time, result-dialog flag and stored result
unchanged, clears the submitting flag, and issues exactly one request (no
automatic retry). -/
theorem submitQuiz_failure_recoverable (s : AttemptState) (q : Quiz)
    (hq : s.quiz = some q) :
    (submitQuiz s SubmitOutcome.err).errorCount = s.errorCount + 1 ∧
    (submitQuiz s SubmitOutcome.err).answers = s.answers ∧
    (submitQuiz s SubmitOutcome.err).started = s.started ∧
    (submitQuiz s SubmitOutcome.err).timeLeft = s.timeLeft ∧
    (submitQuiz s SubmitOutcome.err).showResult = s.showResult ∧
    (submitQuiz s SubmitOutcome.err).result = s.result ∧
    (submitQuiz s SubmitOutcome.err).submitting = false ∧
    (submitQuiz s SubmitOutcome.err).submitCount = s.submitCount + 1 := by
  simp [submitQuiz, hq]

/-- Witness for C8 at a concrete loaded state. -/
theorem submitQuiz_failure_recoverable_witness :
    (submitQuiz (loadQuiz initialState demoQuiz) SubmitOutcome.err).errorCount
      = (loadQuiz initialState demoQuiz).errorCount + 1 ∧
    (submitQuiz (loadQuiz initialState demoQuiz) SubmitOutcome.err).answers
      = (loadQuiz initialState demoQuiz).answers ∧
    (submitQuiz (loadQuiz initialState demoQuiz) SubmitOutcome.err).started
      = (loadQuiz initialState demoQuiz).started ∧
    (submitQuiz (loadQuiz initialState demoQuiz) SubmitOutcome.err).timeLeft
      = (loadQuiz initialState demoQuiz).timeLeft ∧
    (submitQuiz (loadQuiz initialState demoQuiz) SubmitOutcome.err).showResult
      = (loadQuiz initialState demoQuiz).showResult ∧
    (submitQuiz (loadQuiz initialState demoQuiz) SubmitOutcome.err).result
      = (loadQuiz initialState demoQuiz).result ∧
    (submitQuiz (loadQuiz initialState demoQuiz) SubmitOutcome.err).submitting = false ∧
    (submitQuiz (loadQuiz initialState demoQuiz) SubmitOutcome.err).submitCount
      = (loadQuiz initialState demoQuiz).submitCount + 1 :=
  submitQuiz_failure_recoverable (loadQuiz initialState demoQuiz) demoQuiz rfl

/-- A concrete one-question quiz with a one-minute limit. -/
def oneQuestionQuiz : Quiz :=
  { quiz_id := "qz2", subject_id := "sb1", title := "Solo", description := none,
    questions := [demoQuestion], time_limit_mins := 1 }

/-- Load the two-question demo quiz, start, and let the clock run out: 60
timeouts fire, then the effect runs once more with zero time remaining. -/
def timeoutTrace : List Event :=
  [Event.load demoQuiz, Event.start] ++
    List.replicate 60 (Event.tick SubmitOutcome.err) ++
    [Event.tick SubmitOutcome.err]

/-- C1, failing input: the timer reaching 0 while running with unanswered
questions shows the Incomplete confirmation alert and issues no submission
request (the submission waits for the user's choice), contrary to a forced
unconditional submission. -/
theorem timeout_shows_incomplete_prompt :
    (runTrace timeoutTrace).started = true ∧
    (runTrace timeoutTrace).timeLeft = 0 ∧
    (runTrace timeoutTrace).promptCount = 1 ∧
    (runTrace timeoutTrace).submitCount = 0 ∧
    (runTrace timeoutTrace).pendingConfirm = true := by decide

/-- Load the one-question quiz, start, answer the question, and submit
explicitly with the server scoring it 1 of 1. -/
def answeredSubmitTrace : List Event :=
  [Event.load oneQuestionQuiz, Event.start, Event.answer 0 0,
   Event.userSubmit (SubmitOutcome.ok { score := 1, total := 1 })]

/-- Continue after the successful submission: the timer was never stopped,
so 60 more timeouts fire and the zero-time effect run resubmits. -/
def doubleSubmitTrace : List Event :=
  answeredSubmitTrace ++
    List.replicate 60 (Event.tick SubmitOutcome.err) ++
    [Event.tick (SubmitOutcome.ok { score := 1, total := 1 })]

/-- C2, failing input: after a successful explicit submission (result
dialog showing, one request issued), the still-running timer reaches 0 and
triggers a second submission request. -/
theorem second_submission_after_result :
    (runTrace answeredSubmitTrace).showResult = true ∧
    (runTrace answeredSubmitTrace).submitCount = 1 ∧
    (runTrace answeredSubmitTrace).started = true ∧
    (runTrace doubleSubmitTrace).submitCount = 2 := by decide

/-- C3, counterexample: in a submitted session (result dialog showing) the
next tick still decreases the remaining time, so remaining time does
decrease after submission. -/
theorem tick_decreases_time_after_submission :
    (runTrace answeredSubmitTrace).showResult = true ∧
    (timerTick (runTrace answeredSubmitTrace) SubmitOutcome.err).timeLeft
      < (runTrace answeredSubmitTrace).timeLeft := by decide

/-- C3 amended: while started with positive remaining time, a tick
decreases the remaining time by exactly 1, and no tick ever increases the
remaining time; this holds whether or not the session has submitted, so
after submission the countdown keeps decreasing until it reaches 0. -/
theorem timerTick_time (s : AttemptState) (oc : SubmitOutcome) :
    (s.started = true → 0 < s.timeLeft →
      (timerTick s oc).timeLeft = s.timeLeft - 1) ∧
    (timerTick s oc).timeLeft ≤ s.timeLeft := by
  constructor
  · intro hs ht
    simp [timerTick, hs, ht]
  · unfold timerTick
    split
    · exact Nat.sub_le _ _
    · split
      · exact le_of_eq (handleSubmit_preserves s oc).2.2.1
      · exact le_refl _


/-- Witness for C3's amended claim at a concrete started state. -/
theorem timerTick_time_witness :
    (timerTick (runTrace [Event.load demoQuiz, Event.start]) SubmitOutcome.err).timeLeft
      = (runTrace [Event.load demoQuiz, Event.start]).timeLeft - 1 ∧
    (timerTick (runTrace [Event.load demoQuiz, Event.start]) SubmitOutcome.err).timeLeft
      ≤ (runTrace [Event.load demoQuiz, Event.start]).timeLeft :=
  ⟨(timerTick_time (runTrace [Event.load demoQuiz, Event.start])
      SubmitOutcome.err).1 (by decide) (by decide),
   (timerTick_time (runTrace [Event.load demoQuiz, Event.start])
      SubmitOutcome.err).2⟩

/-- Attempt states reachable from the initial component state, under the
spec's constraint that every answer event carries a question index within
[0, questionCount). -/
inductive ReachableOK : AttemptState → Prop where
  | init : ReachableOK initialState
  | load (s : AttemptState) (q : Quiz) :
      ReachableOK s → ReachableOK (loadQuiz s q)
  | start (s : AttemptState) :
      ReachableOK s → ReachableOK (handleStart s)
  | answer (s : AttemptState) (i : Nat) (o : Int) :
      ReachableOK s → (∀ q, s.quiz = some q → i < q.questions.length) →
      ReachableOK (handleAnswerChange s i o)
  | tick (s : AttemptState) (oc : SubmitOutcome) :
      ReachableOK s → ReachableOK (timerTick s oc)
  | userSubmit (s : AttemptState) (oc : SubmitOutcome) :
      ReachableOK s → ReachableOK (handleSubmit s oc)
  | confirm (s : AttemptState) (oc : SubmitOutcome) :
      ReachableOK s → ReachableOK (confirmIncomplete s oc)
  | cancel (s : AttemptState) :
      ReachableOK s → ReachableOK (cancelIncomplete s)

/-- C6: in every reachable attempt state with a loaded quiz, the answers
sequence has exactly one entry per question; established by initialization
and preserved by every operation. -/
theorem reachable_answers_length (s : AttemptState) (h : ReachableOK s) :
    ∀ q, s.quiz = some q → s.answers.length = q.questions.length := by
  induction h with
  | init =>
      intro q hq
      exact absurd hq (by simp [initialState])
  | load s q _ _ =>
      intro q2 hq2
      have hqq : q = q2 := by simpa [loadQuiz] using hq2
      subst hqq
      simp [loadQuiz]
  | start s _ ih =>
      intro q hq
      exact ih q hq
  | answer s i o _ _ ih =>
      intro q hq
      have hq' : s.quiz = some q := hq
      simp only [handleAnswerChange, List.length_set]
      exact ih q hq'
  | tick s oc _ ih =>
      intro q hq
      rw [(timerTick_preserves s oc).1]
      refine ih q ?_
      rw [← (timerTick_preserves s oc).2.1]
      exact hq
  | userSubmit s oc _ ih =>
      intro q hq
      rw [(handleSubmit_preserves s oc).1]
      refine ih q ?_
      rw [← (handleSubmit_preserves s oc).2.1]
      exact hq
  | confirm s oc _ ih =>
      intro q hq
      rw [(confirmIncomplete_preserves s oc).1]
      refine ih q ?_
      rw [← (confirmIncomplete_preserves s oc).2]
      exact hq
  | cancel s _ ih =>
      intro q hq
      exact ih q hq

/-- Witness for C6 at the concrete state reached by loading the demo quiz. -/
theorem reachable_answers_length_witness :
    (loadQuiz initialState demoQuiz).answers.length = demoQuiz.questions.length :=
  reachable_answers_length (loadQuiz initialState demoQuiz)
    (ReachableOK.load initialState demoQuiz ReachableOK.init) demoQuiz rfl

/-- C9: the displayed percentage is within 1/2 of score/total*100 (it is
the nearest integer, rounding half up), the positive message is shown
exactly when score/total reaches the 70% threshold (inclusive), and for
score 7 of 10 the display is 70 with the positive message. -/
theorem result_dialog_display (r : QuizResult) (ht : 0 < r.total) :
    |(resultPercentage r : ℚ) - (r.score : ℚ) / (r.total : ℚ) * 100| ≤ 1 / 2 ∧
    (resultMessage r = "Great job! Well done!" ↔ 7 * r.total ≤ 10 * r.score) ∧
    resultPercentage { score := 7, total := 10 } = 70 ∧
    resultMessage { score := 7, total := 10 } = "Great job! Well done!" := by
  refine ⟨?_, ?_, ?_, ?_⟩
  · unfold resultPercentage mathRound
    have h1 : (⌊(r.score : ℚ) / (r.total : ℚ) * 100 + 1 / 2⌋ : ℚ) ≤
        (r.score : ℚ) / (r.total : ℚ) * 100 + 1 / 2 := Int.floor_le _
    have h2 : (r.score : ℚ) / (r.total : ℚ) * 100 + 1 / 2 - 1 <
        (⌊(r.score : ℚ) / (r.total : ℚ) * 100 + 1 / 2⌋ : ℚ) := Int.sub_one_lt_floor _
    rw [abs_le]
    constructor <;> linarith
  · have hiff : ((7 : ℚ) / 10 ≤ (r.score : ℚ) / (r.total : ℚ)) ↔
        7 * r.total ≤ 10 * r.score := by
      rw [div_le_div_iff₀ (by norm_num : (0 : ℚ) < 10) (by exact_mod_cast ht)]
      rw [mul_comm ((r.score : ℚ)) 10]
      exact_mod_cast Iff.rfl
    unfold resultMessage
    by_cases hcond : (7 : ℚ) / 10 ≤ (r.score : ℚ) / (r.total : ℚ)
    · rw [if_pos hcond]
      exact iff_of_true rfl (hiff.mp hcond)
    · rw [if_neg hcond]
      refine iff_of_false ?_ (fun hP => hcond (hiff.mpr hP))
      decide
  · unfold resultPercentage mathRound
    norm_num
  · unfold resultMessage
    norm_num

/-- Witness for C9 at the concrete result score 7 of 10. -/
theorem result_dialog_display_witness :
    (resultMessage { score := 7, total := 10 } = "Great job! Well done!" ↔
      7 * 10 ≤ 10 * 7) ∧
    resultPercentage { score := 7, total := 10 } = 70 ∧
    resultMessage { score := 7, total := 10 } = "Great job! Well done!" :=
  ⟨(result_dialog_display { score := 7, total := 10 } (by decide)).2.1,
   (result_dialog_display { score := 7, total := 10 } (by decide)).2.2.1,
   (result_dialog_display { score := 7, total := 10 } (by decide)).2.2.2⟩

/-- A CreateQuiz draft with a non-blank title and an empty question list. -/
def emptyQuestionsDraft : CreateQuizState :=
  { title := "Algebra", description := "", timeLimit := "30",
    questions := [], postCount := 0, errorCount := 0 }

/-- C10, counterexample: a draft whose title is non-blank and whose (empty)
question list vacuously has every prompt and option non-blank is still
rejected with a validation error and no POST, because the handler also
requires a non-empty question list. -/
theorem createQuiz_empty_questions_rejected :
    isBlank emptyQuestionsDraft.title = false ∧
    (∀ q ∈ emptyQuestionsDraft.questions, questionInvalid q = false) ∧
    (createQuizSubmit emptyQuestionsDraft).postCount = emptyQuestionsDraft.postCount ∧
    (createQuizSubmit emptyQuestionsDraft).errorCount
      = emptyQuestionsDraft.errorCount + 1 := by
  refine ⟨by decide, ?_, by decide, by decide⟩
  intro q hq
  exact absurd hq (List.not_mem_nil q)

/-- C10 amended: the submit handler leaves the draft unchanged, issues the
POST /quiz request (with no error alert) exactly when the title is
non-blank, the question list is non-empty and every question's prompt and
option strings are non-blank, and in every other case shows one validation
error and sends no request. -/
theorem createQuizSubmit_validation (s : CreateQuizState) :
    (createQuizSubmit s).title = s.title ∧
    (createQuizSubmit s).questions = s.questions ∧
    (((createQuizSubmit s).postCount = s.postCount + 1 ∧
      (createQuizSubmit s).errorCount = s.errorCount) ↔
      (isBlank s.title = false ∧ s.questions ≠ [] ∧
        ∀ q ∈ s.questions, questionInvalid q = false)) ∧
    (((createQuizSubmit s).postCount = s.postCount ∧
      (createQuizSubmit s).errorCount = s.errorCount + 1) ↔
      ¬ (isBlank s.title = false ∧ s.questions ≠ [] ∧
        ∀ q ∈ s.questions, questionInvalid q = false)) := by
  have hV : (isBlank s.title = false ∧ s.questions ≠ [] ∧
      ∀ q ∈ s.questions, questionInvalid q = false) ↔
      (isBlank s.title || decide (s.questions.length = 0)) = false ∧
        s.questions.any questionInvalid = false := by
    constructor
    · rintro ⟨hT, hNE, hall⟩
      have hlen : s.questions.length ≠ 0 := fun h => hNE (List.length_eq_zero.mp h)
      refine ⟨by simp [hT, hlen], ?_⟩
      exact List.any_eq_false.mpr (fun q hq => by simp [hall q hq])
    · rintro ⟨h1, h2⟩
      rw [Bool.or_eq_false_iff] at h1
      refine ⟨h1.1, ?_, ?_⟩
      · intro hnil
        have := h1.2
        rw [hnil] at this
        simp at this
      · intro q hq
        have hx := List.any_eq_false.mp h2 q hq
        simpa using hx
  cases hb1 : (isBlank s.title || decide (s.questions.length = 0)) with
  | true =>
      have hc : createQuizSubmit s = { s with errorCount := s.errorCount + 1 } := by
        unfold createQuizSubmit
        rw [if_pos hb1]
      have hnV : ¬ (isBlank s.title = false ∧ s.questions ≠ [] ∧
          ∀ q ∈ s.questions, questionInvalid q = false) := by
        intro hVv
        have hfalse := (hV.mp hVv).1
        rw [hb1] at hfalse
        exact Bool.noConfusion hfalse
      rw [hc]
      refine ⟨rfl, rfl, ?_, ?_⟩
      · constructor
        · rintro ⟨hp, _⟩
          have hp' : s.postCount = s.postCount + 1 := hp
          exact absurd hp' (by omega)
        · intro hVv
          exact absurd hVv hnV
      · exact iff_of_true ⟨rfl, rfl⟩ hnV
  | false =>
      cases hb2 : s.questions.any questionInvalid with
      | true =>
          have hb1' : ¬ ((isBlank s.title ||
              decide (s.questions.length = 0)) = true) := by
            rw [hb1]
            exact fun h => Bool.noConfusion h
          have hc : createQuizSubmit s = { s with errorCount := s.errorCount + 1 } := by
            unfold createQuizSubmit
            rw [if_neg hb1', if_pos hb2]
          have hnV : ¬ (isBlank s.title = false ∧ s.questions ≠ [] ∧
              ∀ q ∈ s.questions, questionInvalid q = false) := by
            intro hVv
            have hfalse := (hV.mp hVv).2
            rw [hb2] at hfalse
            exact Bool.noConfusion hfalse
          rw [hc]
          refine ⟨rfl, rfl, ?_, ?_⟩
          · constructor
            · rintro ⟨hp, _⟩
              have hp' : s.postCount = s.postCount + 1 := hp
              exact absurd hp' (by omega)
            · intro hVv
              exact absurd hVv hnV
          · exact iff_of_true ⟨rfl, rfl⟩ hnV
      | false =>
          have hb1' : ¬ ((isBlank s.title ||
              decide (s.questions.length = 0)) = true) := by
            rw [hb1]
            exact fun h => Bool.noConfusion h
          have hb2' : ¬ (s.questions.any questionInvalid = true) := by
            rw [hb2]
            exact fun h => Bool.noConfusion h
          have hc : createQuizSubmit s = { s with postCount := s.postCount + 1 } := by
            unfold createQuizSubmit
            rw [if_neg hb1', if_neg hb2']
          have hVv : isBlank s.title = false ∧ s.questions ≠ [] ∧
              ∀ q ∈ s.questions, questionInvalid q = false := hV.mpr ⟨hb1, hb2⟩
          rw [hc]
          refine ⟨rfl, rfl, ?_, ?_⟩
          · exact iff_of_true ⟨rfl, rfl⟩ hVv
          · constructor
            · rintro ⟨_, he⟩
              have he' : s.errorCount = s.errorCount + 1 := he
              exact absurd he' (by omega)
            · intro hnVv
              exact absurd hVv hnVv

/-- A fully filled one-question CreateQuiz draft. -/
def filledDraft : CreateQuizState :=
  { title := "Algebra", description := "", timeLimit := "30",
    questions := [demoQuestion], postCount := 0, errorCount := 0 }

/-- Witness for C10's amended claim: a one-question fully filled draft
issues the POST and no error. -/
theorem createQuizSubmit_validation_witness :
    (createQuizSubmit filledDraft).postCount = filledDraft.postCount + 1 ∧
    (createQuizSubmit filledDraft).errorCount = filledDraft.errorCount :=
  (createQuizSubmit_validation filledDraft).2.2.1.mpr
    ⟨by decide, by decide, by decide⟩
